import Mathlib

/-!
Shallow embedding of the Superstore Streamlit dashboard (`src/app.py`) and
proofs about its load / filter / KPI / aggregation pipeline.

Modelling conventions:
* A pandas `DataFrame` is a list of rows plus one Boolean per optional column
  recording whether that column is present in the loaded CSV.
* Calendar dates (`pd.Timestamp` truncated to `.date()`) are `Date` triples;
  `NaT` (a missing / unparseable date) is `Option.none`.
* Float values (`Sales`, `Profit`, `Discount`) are rationals; the float `NaN`
  produced by `Series.mean()` on an empty series is `Option.none`.
* `pd.to_datetime(..., errors="coerce")` is modelled by the raw cells already
  being `Option Date` (`none` = unparseable); `dropna` is a filter on `isSome`.
* `groupby` emits its group keys in ascending key order (pandas `sort=True`)
  and drops rows whose key is null; `sort_values` re-sorts by value.
* `resample("M")` buckets by calendar month from the earliest to the latest
  month present (empty months included, summing to 0), labelling each bucket
  with the last calendar day of its month.
-/

/-- A calendar date (year, month 1-12, day 1-31). -/
structure Date where
  year : Nat
  month : Nat
  day : Nat
deriving DecidableEq, Repr

/-- Date comparison, lexicographic on (year, month, day); models `<=` on
`datetime.date` values. -/
def Date.le (a b : Date) : Bool :=
  if a.year < b.year then true
  else if b.year < a.year then false
  else if a.month < b.month then true
  else if b.month < a.month then false
  else decide (a.day ≤ b.day)

/-- One order record.  Optional string-valued cells are `Option String` so a
null (`NaN`) cell is `none`; the date cells are `Option Date` so `NaT` is
`none`. -/
structure Row where
  orderDate : Option Date
  shipDate : Option Date
  sales : ℚ
  profit : ℚ
  discount : ℚ
  orderId : String
  productName : Option String
  region : Option String
  category : Option String
  segment : Option String
  shipMode : Option String
  state : Option String
deriving DecidableEq, Repr

/-- A pandas dataframe: the ordered rows plus a presence flag per column that
the script ever tests with `in df.columns`.  `Order Date`, `Sales`, `Profit`
also get flags because the script checks them as required columns. -/
structure DataFrame where
  hasOrderDate : Bool
  hasShipDate : Bool
  hasSales : Bool
  hasProfit : Bool
  hasDiscount : Bool
  hasOrderId : Bool
  hasProductName : Bool
  hasRegion : Bool
  hasCategory : Bool
  hasSegment : Bool
  hasShipMode : Bool
  hasState : Bool
  rows : List Row
deriving DecidableEq, Repr

/-- `load_data` (app.py:10-20): parse `Order Date` / `Ship Date` with
`errors="coerce"` (already reflected in the `Option Date` cells) and, when the
`Order Date` column exists, drop every row whose `Order Date` is missing.
Unparseable `Ship Date` cells are kept as `none`.  Total: never raises. -/
def load_data (df : DataFrame) : DataFrame :=
  if df.hasOrderDate then
    { df with rows := df.rows.filter (fun r => r.orderDate.isSome) }
  else df

/-- `required_cols` (app.py:31). -/
def required_cols : List String := ["Order Date", "Sales", "Profit"]

/-- `c in df.columns` for the column names the script mentions. -/
def hasCol (df : DataFrame) (c : String) : Bool :=
  if c = "Order Date" then df.hasOrderDate
  else if c = "Ship Date" then df.hasShipDate
  else if c = "Sales" then df.hasSales
  else if c = "Profit" then df.hasProfit
  else if c = "Discount" then df.hasDiscount
  else if c = "Order ID" then df.hasOrderId
  else if c = "Product Name" then df.hasProductName
  else if c = "Region" then df.hasRegion
  else if c = "Category" then df.hasCategory
  else if c = "Segment" then df.hasSegment
  else if c = "Ship Mode" then df.hasShipMode
  else if c = "State" then df.hasState
  else false

/-- `missing = [c for c in required_cols if c not in df.columns]` (app.py:32). -/
def missing_cols (df : DataFrame) : List String :=
  required_cols.filter (fun c => !hasCol df c)

/-- The sidebar filter state: an inclusive date interval plus one multiselect
selection per categorical dimension (app.py:43-60). -/
structure Criteria where
  startDate : Date
  endDate : Date
  regions : List String
  categories : List String
  segments : List String
  shipModes : List String
deriving DecidableEq, Repr

/-- The date-range predicate
`(df["Order Date"].dt.date >= start_date) & (df["Order Date"].dt.date <= end_date)`
(app.py:63-64); any comparison against `NaT` is false. -/
def dateOk (c : Criteria) (r : Row) : Bool :=
  match r.orderDate with
  | none => false
  | some d => Date.le c.startDate d && Date.le d c.endDate

/-- `series.isin(sel)` applied to one cell: a null cell is never a member. -/
def memOpt (sel : List String) (v : Option String) : Bool :=
  match v with
  | none => false
  | some s => sel.contains s

/-- One `if col in dff.columns and sel: dff = dff[dff[col].isin(sel)]` step
(app.py:67-74): active only when the column is present and the selection is
non-empty. -/
def applyDim (flag : Bool) (sel : List String) (get : Row → Option String)
    (rows : List Row) : List Row :=
  if flag && !sel.isEmpty then rows.filter (fun r => memOpt sel (get r)) else rows

/-- The row list of the filtered view `dff` (app.py:62-74). -/
def filterRows (df : DataFrame) (c : Criteria) : List Row :=
  applyDim df.hasShipMode c.shipModes Row.shipMode
    (applyDim df.hasSegment c.segments Row.segment
      (applyDim df.hasCategory c.categories Row.category
        (applyDim df.hasRegion c.regions Row.region
          (df.rows.filter (dateOk c)))))

/-- The filtered view `dff` (app.py:62-74): `df[...].copy()` keeps every
column, so the presence flags carry over unchanged. -/
def filterData (df : DataFrame) (c : Criteria) : DataFrame :=
  { df with rows := filterRows df c }

/-- The whole script through the filter step: load, check the required
columns, and on failure report `st.error` + `st.stop()` (app.py:29-35) —
modelled as `Except.error`, produced once, never retried; otherwise the
filtered view is handed to the KPI/aggregation code below. -/
def run_dashboard (raw : DataFrame) (c : Criteria) : Except String DataFrame :=
  let df := load_data raw
  let missing := missing_cols df
  if missing.isEmpty then Except.ok (filterData df c)
  else Except.error ("Missing required columns in CSV: " ++ String.intercalate ", " missing)

/-- `total_sales = float(dff["Sales"].sum())` (app.py:77). -/
def total_sales (df : DataFrame) : ℚ :=
  (df.rows.map Row.sales).sum

/-- `total_profit = float(dff["Profit"].sum())` (app.py:78). -/
def total_profit (df : DataFrame) : ℚ :=
  (df.rows.map Row.profit).sum

/-- `total_orders = int(dff["Order ID"].nunique()) if "Order ID" in dff.columns else 0`
(app.py:79). -/
def total_orders (df : DataFrame) : Nat :=
  if df.hasOrderId then ((df.rows.map Row.orderId).dedup).length else 0

/-- `avg_discount = float(dff["Discount"].mean()) if "Discount" in dff.columns else 0.0`
(app.py:80).  `Series.mean()` of an empty series is the float `NaN`, modelled
as `none`; the missing-column fallback is the float `0.0`, i.e. `some 0`. -/
def avg_discount (df : DataFrame) : Option ℚ :=
  if df.hasDiscount then
    if df.rows.isEmpty then none
    else some ((df.rows.map Row.discount).sum / (df.rows.length : ℚ))
  else some 0

/-- Lexicographic comparison of character lists by Unicode code point, the
order Python/pandas use on strings. -/
def strLeAux : List Char → List Char → Bool
  | [], _ => true
  | _ :: _, [] => false
  | c :: cs, d :: ds =>
      if c.val < d.val then true
      else if d.val < c.val then false
      else strLeAux cs ds

/-- String comparison by Unicode code point. -/
def strLe (a b : String) : Bool :=
  strLeAux a.data b.data

/-- Ascending sort of group keys, as `groupby(sort=True)` emits them. -/
def sortStrings (l : List String) : List String :=
  List.insertionSort (fun a b => strLe a b = true) l

/-- `rows.groupby(key)[val].sum()`: one (key, sum) pair per distinct non-null
key, keys ascending; rows whose key cell is null are dropped by pandas. -/
def groupSum (key : Row → Option String) (val : Row → ℚ) (rows : List Row) :
    List (String × ℚ) :=
  (sortStrings (rows.filterMap key).dedup).map
    (fun k => (k, ((rows.filter (fun r => key r == some k)).map val).sum))

/-- `rows.groupby(key)[[v1, v2]].sum()`: like `groupSum` with two summed
columns. -/
def groupSum2 (key : Row → Option String) (v1 v2 : Row → ℚ) (rows : List Row) :
    List (String × ℚ × ℚ) :=
  (sortStrings (rows.filterMap key).dedup).map
    (fun k =>
      (k, ((rows.filter (fun r => key r == some k)).map v1).sum,
          ((rows.filter (fun r => key r == some k)).map v2).sum))

/-- `sort_values(ascending=False)` on a keyed sum. -/
def sortByValDesc (l : List (String × ℚ)) : List (String × ℚ) :=
  List.insertionSort (fun a b => b.2 ≤ a.2) l

/-- `sort_values(ascending=True)` on a keyed sum. -/
def sortByValAsc (l : List (String × ℚ)) : List (String × ℚ) :=
  List.insertionSort (fun a b => a.2 ≤ b.2) l

/-- Ascending sort of date group keys. -/
def sortDates (l : List Date) : List Date :=
  List.insertionSort (fun a b => Date.le a b = true) l

/-- `sales_daily = dff.groupby(dff["Order Date"].dt.date)["Sales"].sum()`
(app.py:96-101): per-date sales sums, dates ascending; a `NaT` key would be
dropped by `groupby`. -/
def sales_daily (df : DataFrame) : List (Date × ℚ) :=
  (sortDates ((df.rows.filterMap Row.orderDate).dedup)).map
    (fun d => (d, ((df.rows.filter (fun r => r.orderDate == some d)).map Row.sales).sum))

/-- The rank of a date's calendar month on the infinite month axis. -/
def monthIdx (d : Date) : Nat :=
  d.year * 12 + (d.month - 1)

/-- Gregorian leap-year test. -/
def isLeap (y : Nat) : Bool :=
  (y % 4 == 0 && y % 100 != 0) || y % 400 == 0

/-- Number of days in a month of a given year. -/
def daysInMonth (y m : Nat) : Nat :=
  if m == 2 then (if isLeap y then 29 else 28)
  else if m == 4 || m == 6 || m == 9 || m == 11 then 30
  else 31

/-- The last calendar day of the month with index `i` — the label
`resample("M")` gives that month's bucket. -/
def monthEndDate (i : Nat) : Date :=
  ⟨i / 12, i % 12 + 1, daysInMonth (i / 12) (i % 12 + 1)⟩

/-- `profit_month = dff.set_index("Order Date")["Profit"].resample("M").sum()`
(app.py:111-116): one bucket for every calendar month from the earliest to the
latest `Order Date` month (months with no rows sum to 0), ascending, each
labelled with the last day of its month; empty input gives an empty result. -/
def profit_month (df : DataFrame) : List (Date × ℚ) :=
  let pairs := df.rows.filterMap (fun r => r.orderDate.map (fun d => (d, r.profit)))
  let idxs := pairs.map (fun p => monthIdx p.1)
  match idxs.min?, idxs.max? with
  | some lo, some hi =>
      (List.range (hi + 1 - lo)).map (fun i =>
        (monthEndDate (lo + i),
         ((pairs.filter (fun p => monthIdx p.1 == lo + i)).map Prod.snd).sum))
  | _, _ => []

/-- `cat_sales` (app.py:134-139): per-category sales sums, descending by sum;
`none` when the `Category` column is absent (the script shows a notice
instead). -/
def cat_sales (df : DataFrame) : Option (List (String × ℚ)) :=
  if df.hasCategory then some (sortByValDesc (groupSum Row.category Row.sales df.rows))
  else none

/-- `cat_profit` (app.py:148-153): per-category profit sums, ascending by sum;
`none` when the `Category` column is absent. -/
def cat_profit (df : DataFrame) : Option (List (String × ℚ)) :=
  if df.hasCategory then some (sortByValAsc (groupSum Row.category Row.profit df.rows))
  else none

/-- `region_agg` (app.py:167-172): per-region (sales, profit) sums, rows
descending by the sales sum; `none` when `Region` is absent. -/
def region_agg (df : DataFrame) : Option (List (String × ℚ × ℚ)) :=
  if df.hasRegion then
    some (List.insertionSort (fun a b => b.2.1 ≤ a.2.1)
      (groupSum2 Row.region Row.sales Row.profit df.rows))
  else none

/-- `top_sales` (app.py:195-201): per-product sales sums sorted descending,
truncated to the first 10; `none` when `Product Name` is absent. -/
def top_sales (df : DataFrame) : Option (List (String × ℚ)) :=
  if df.hasProductName then
    some ((sortByValDesc (groupSum Row.productName Row.sales df.rows)).take 10)
  else none

/-- `top_sales.sort_values("Sales")` (app.py:211): the top-10 table re-sorted
ascending for the horizontal bar chart. -/
def top_sales_display (df : DataFrame) : Option (List (String × ℚ)) :=
  (top_sales df).map sortByValAsc

/-- `top_profit` (app.py:202-208): per-product profit sums sorted descending,
truncated to the first 10. -/
def top_profit (df : DataFrame) : Option (List (String × ℚ)) :=
  if df.hasProductName then
    some ((sortByValDesc (groupSum Row.productName Row.profit df.rows)).take 10)
  else none

/-- `top_profit.sort_values("Profit")` (app.py:215). -/
def top_profit_display (df : DataFrame) : Option (List (String × ℚ)) :=
  (top_profit df).map sortByValAsc

/-- `state_sales` (app.py:225-230): per-state sales sums, descending by sum;
`none` when `State` is absent. -/
def state_sales (df : DataFrame) : Option (List (String × ℚ)) :=
  if df.hasState then some (sortByValDesc (groupSum Row.state Row.sales df.rows))
  else none

/-! Helper lemmas about the filter stages. -/

lemma mem_of_mem_applyDim {flag : Bool} {sel : List String} {get : Row → Option String}
    {rows : List Row} {r : Row} (h : r ∈ applyDim flag sel get rows) : r ∈ rows := by
  unfold applyDim at h
  split at h
  · exact (List.mem_filter.mp h).1
  · exact h

lemma applyDim_sublist (flag : Bool) (sel : List String) (get : Row → Option String)
    (rows : List Row) : (applyDim flag sel get rows).Sublist rows := by
  unfold applyDim
  split
  · exact List.filter_sublist rows
  · exact List.Sublist.refl rows

lemma mem_applyDim_sel {flag : Bool} {sel : List String} {get : Row → Option String}
    {rows : List Row} {r : Row} (h : r ∈ applyDim flag sel get rows)
    (hf : flag = true) (hs : sel ≠ []) : memOpt sel (get r) = true := by
  have hcond : (flag && !sel.isEmpty) = true := by
    cases sel with
    | nil => exact absurd rfl hs
    | cons a l => simp [hf]
  unfold applyDim at h
  rw [if_pos hcond] at h
  exact (List.mem_filter.mp h).2

lemma applyDim_eq_self {flag : Bool} {sel : List String} {get : Row → Option String}
    {rows : List Row}
    (h : ∀ r ∈ rows, flag = true → sel ≠ [] → memOpt sel (get r) = true) :
    applyDim flag sel get rows = rows := by
  unfold applyDim
  split
  case isTrue hc =>
    refine List.filter_eq_self.mpr fun r hr => ?_
    rw [Bool.and_eq_true] at hc
    obtain ⟨hf, hs'⟩ := hc
    have hs : sel ≠ [] := by
      cases sel
      · simp at hs'
      · simp
    exact h r hr hf hs
  case isFalse => rfl

lemma filterRows_spec (df : DataFrame) (c : Criteria) (r : Row) (h : r ∈ filterRows df c) :
    r ∈ df.rows ∧ dateOk c r = true
    ∧ (df.hasRegion = true → c.regions ≠ [] → memOpt c.regions r.region = true)
    ∧ (df.hasCategory = true → c.categories ≠ [] → memOpt c.categories r.category = true)
    ∧ (df.hasSegment = true → c.segments ≠ [] → memOpt c.segments r.segment = true)
    ∧ (df.hasShipMode = true → c.shipModes ≠ [] → memOpt c.shipModes r.shipMode = true) := by
  unfold filterRows at h
  have h4 := h
  have h3 := mem_of_mem_applyDim h4
  have h2 := mem_of_mem_applyDim h3
  have h1 := mem_of_mem_applyDim h2
  have h0 := mem_of_mem_applyDim h1
  exact ⟨(List.mem_filter.mp h0).1, (List.mem_filter.mp h0).2,
    fun hf hs => mem_applyDim_sel h1 hf hs,
    fun hf hs => mem_applyDim_sel h2 hf hs,
    fun hf hs => mem_applyDim_sel h3 hf hs,
    fun hf hs => mem_applyDim_sel h4 hf hs⟩

lemma memOpt_eq_true_iff {sel : List String} {v : Option String} :
    memOpt sel v = true ↔ ∃ s, v = some s ∧ s ∈ sel := by
  cases v with
  | none => simp [memOpt]
  | some s => simp [memOpt]

lemma dateOk_eq_true_iff {c : Criteria} {r : Row} :
    dateOk c r = true
      ↔ ∃ d, r.orderDate = some d ∧ Date.le c.startDate d = true ∧ Date.le d c.endDate = true := by
  cases hod : r.orderDate with
  | none => simp [dateOk, hod]
  | some d => simp [dateOk, hod, Bool.and_eq_true]

/-- C1: every row of the filtered view has a non-null Order Date lying in the
inclusive `[start_date, end_date]` range, and for each categorical dimension
whose column is present and whose selection is non-empty the row's value is a
(non-null) member of the selection; an absent column or an empty selection
imposes no constraint (those hypotheses are simply not available). -/
theorem filtered_rows_satisfy_criteria (df : DataFrame) (c : Criteria) (r : Row)
    (h : r ∈ (filterData df c).rows) :
    (∃ d, r.orderDate = some d ∧ Date.le c.startDate d = true ∧ Date.le d c.endDate = true)
    ∧ (df.hasRegion = true → c.regions ≠ [] → ∃ s, r.region = some s ∧ s ∈ c.regions)
    ∧ (df.hasCategory = true → c.categories ≠ [] → ∃ s, r.category = some s ∧ s ∈ c.categories)
    ∧ (df.hasSegment = true → c.segments ≠ [] → ∃ s, r.segment = some s ∧ s ∈ c.segments)
    ∧ (df.hasShipMode = true → c.shipModes ≠ [] → ∃ s, r.shipMode = some s ∧ s ∈ c.shipModes) := by
  have hs := filterRows_spec df c r h
  exact ⟨dateOk_eq_true_iff.mp hs.2.1,
    fun hf hn => memOpt_eq_true_iff.mp (hs.2.2.1 hf hn),
    fun hf hn => memOpt_eq_true_iff.mp (hs.2.2.2.1 hf hn),
    fun hf hn => memOpt_eq_true_iff.mp (hs.2.2.2.2.1 hf hn),
    fun hf hn => memOpt_eq_true_iff.mp (hs.2.2.2.2.2 hf hn)⟩

/-- A dataframe with every column present, used as concrete input data. -/
def wdfAllCols (rows : List Row) : DataFrame :=
  { hasOrderDate := true, hasShipDate := true, hasSales := true, hasProfit := true,
    hasDiscount := true, hasOrderId := true, hasProductName := true, hasRegion := true,
    hasCategory := true, hasSegment := true, hasShipMode := true, hasState := true,
    rows := rows }

/-- A concrete order record. -/
def wrow1 : Row :=
  { orderDate := some ⟨2024, 3, 5⟩, shipDate := none, sales := 100, profit := 10,
    discount := 0, orderId := "CA-1", productName := some "Chair",
    region := some "West", category := some "Furniture", segment := some "Consumer",
    shipMode := some "Second Class", state := some "California" }

/-- Concrete filter criteria with every dimension active. -/
def wcrit1 : Criteria :=
  { startDate := ⟨2024, 1, 1⟩, endDate := ⟨2024, 12, 31⟩, regions := ["West"],
    categories := ["Furniture"], segments := ["Consumer"], shipModes := ["Second Class"] }

theorem filtered_rows_satisfy_criteria_witness :
    wrow1 ∈ (filterData (wdfAllCols [wrow1]) wcrit1).rows
    ∧ ((∃ d, wrow1.orderDate = some d ∧ Date.le wcrit1.startDate d = true
          ∧ Date.le d wcrit1.endDate = true)
      ∧ ((wdfAllCols [wrow1]).hasRegion = true → wcrit1.regions ≠ [] →
          ∃ s, wrow1.region = some s ∧ s ∈ wcrit1.regions)
      ∧ ((wdfAllCols [wrow1]).hasCategory = true → wcrit1.categories ≠ [] →
          ∃ s, wrow1.category = some s ∧ s ∈ wcrit1.categories)
      ∧ ((wdfAllCols [wrow1]).hasSegment = true → wcrit1.segments ≠ [] →
          ∃ s, wrow1.segment = some s ∧ s ∈ wcrit1.segments)
      ∧ ((wdfAllCols [wrow1]).hasShipMode = true → wcrit1.shipModes ≠ [] →
          ∃ s, wrow1.shipMode = some s ∧ s ∈ wcrit1.shipModes)) := by
  have hmem : wrow1 ∈ (filterData (wdfAllCols [wrow1]) wcrit1).rows := by
    rw [show (filterData (wdfAllCols [wrow1]) wcrit1).rows = [wrow1] from rfl]
    exact List.mem_cons_self _ _
  exact ⟨hmem, filtered_rows_satisfy_criteria (wdfAllCols [wrow1]) wcrit1 wrow1 hmem⟩

/-- C10: filtering is pure — `filterData` only computes a new view, leaving
its input untouched — and the filtered view is an order-preserving
subsequence of the dataset: the chain of boolean-mask selections yields a
`Sublist`, so every view row is a dataset row and relative order is kept. -/
theorem filtered_view_sublist (df : DataFrame) (c : Criteria) :
    ((filterData df c).rows).Sublist df.rows := by
  show (filterRows df c).Sublist df.rows
  unfold filterRows
  exact (applyDim_sublist _ _ _ _).trans
    ((applyDim_sublist _ _ _ _).trans
      ((applyDim_sublist _ _ _ _).trans
        ((applyDim_sublist _ _ _ _).trans (List.filter_sublist _))))

lemma filterRows_filter_dateOk (df : DataFrame) (c : Criteria) :
    (filterRows df c).filter (dateOk c) = filterRows df c :=
  List.filter_eq_self.mpr fun r hr => (filterRows_spec df c r hr).2.1

/-- C8: filtering is idempotent — applying the same criteria to the filtered
view returns it unchanged, because every surviving row already passes the
date-range test and every active membership test. -/
theorem filter_idempotent (df : DataFrame) (c : Criteria) :
    filterData (filterData df c) c = filterData df c := by
  have hrows : filterRows (filterData df c) c = filterRows df c := by
    show applyDim df.hasShipMode c.shipModes Row.shipMode
        (applyDim df.hasSegment c.segments Row.segment
          (applyDim df.hasCategory c.categories Row.category
            (applyDim df.hasRegion c.regions Row.region
              ((filterRows df c).filter (dateOk c))))) = filterRows df c
    rw [filterRows_filter_dateOk df c,
      applyDim_eq_self (fun r hr => (filterRows_spec df c r hr).2.2.1),
      applyDim_eq_self (fun r hr => (filterRows_spec df c r hr).2.2.2.1),
      applyDim_eq_self (fun r hr => (filterRows_spec df c r hr).2.2.2.2.1),
      applyDim_eq_self (fun r hr => (filterRows_spec df c r hr).2.2.2.2.2)]
  show { filterData df c with rows := filterRows (filterData df c) c } = filterData df c
  rw [hrows]
  rfl

/-- C7: during load (with the `Order Date` column present, as the dashboard
requires), a record whose `Order Date` failed to parse (`none`) is silently
dropped, every other record is kept verbatim — in particular a record whose
`Ship Date` failed to parse survives with that field still `none` — and
`load_data` is total, so neither case raises an error. -/
theorem load_data_date_handling (df : DataFrame) (h : df.hasOrderDate = true) (r : Row)
    (hr : r ∈ df.rows) :
    (r ∈ (load_data df).rows ↔ r.orderDate.isSome = true)
    ∧ ((load_data df).rows).Sublist df.rows := by
  simp only [load_data, h, if_true]
  constructor
  · constructor
    · intro hm
      exact (List.mem_filter.mp hm).2
    · intro hs
      exact List.mem_filter.mpr ⟨hr, hs⟩
  · exact List.filter_sublist _

/-- A record whose `Order Date` parsed but whose `Ship Date` did not. -/
def wrow7good : Row :=
  { orderDate := some ⟨2023, 6, 1⟩, shipDate := none, sales := 10, profit := 1,
    discount := 0, orderId := "A-1", productName := some "Desk",
    region := some "East", category := some "Furniture", segment := some "Consumer",
    shipMode := some "First Class", state := some "Ohio" }

/-- A record whose `Order Date` failed to parse. -/
def wrow7bad : Row :=
  { orderDate := none, shipDate := some ⟨2023, 6, 9⟩, sales := 20, profit := 2,
    discount := 0, orderId := "A-2", productName := some "Lamp",
    region := some "West", category := some "Furniture", segment := some "Consumer",
    shipMode := some "First Class", state := some "Utah" }

theorem load_data_date_handling_witness :
    (load_data (wdfAllCols [wrow7good, wrow7bad])).rows = [wrow7good]
    ∧ ((wrow7good ∈ (load_data (wdfAllCols [wrow7good, wrow7bad])).rows
          ↔ wrow7good.orderDate.isSome = true)
      ∧ ((load_data (wdfAllCols [wrow7good, wrow7bad])).rows).Sublist
          (wdfAllCols [wrow7good, wrow7bad]).rows) :=
  ⟨rfl,
   load_data_date_handling (wdfAllCols [wrow7good, wrow7bad]) rfl wrow7good
     (List.mem_cons_self _ _)⟩

lemma hasCol_orderDate (df : DataFrame) : hasCol df "Order Date" = df.hasOrderDate := rfl

lemma hasCol_sales (df : DataFrame) : hasCol df "Sales" = df.hasSales := rfl

lemma hasCol_profit (df : DataFrame) : hasCol df "Profit" = df.hasProfit := rfl

lemma load_data_hasOrderDate (df : DataFrame) :
    (load_data df).hasOrderDate = df.hasOrderDate := by
  unfold load_data
  split
  · rfl
  · rfl

lemma load_data_hasSales (df : DataFrame) : (load_data df).hasSales = df.hasSales := by
  unfold load_data
  split
  · rfl
  · rfl

lemma load_data_hasProfit (df : DataFrame) : (load_data df).hasProfit = df.hasProfit := by
  unfold load_data
  split
  · rfl
  · rfl

lemma missing_cols_eq (df : DataFrame) :
    missing_cols df
      = (if df.hasOrderDate then [] else ["Order Date"])
        ++ (if df.hasSales then [] else ["Sales"])
        ++ (if df.hasProfit then [] else ["Profit"]) := by
  unfold missing_cols required_cols
  rw [List.filter_cons, List.filter_cons, List.filter_cons]
  rw [hasCol_orderDate, hasCol_sales, hasCol_profit]
  cases df.hasOrderDate <;> cases df.hasSales <;> cases df.hasProfit <;> rfl

/-- C6: the dashboard run fails with a user-visible fatal error — `st.error`
followed by `st.stop()`, modelled as `Except.error`, emitted once with no
retry and no partial output — exactly when at least one of the required
columns `Order Date`, `Sales`, `Profit` is absent from the loaded dataset. -/
theorem run_dashboard_error_iff (raw : DataFrame) (c : Criteria) :
    (∃ e, run_dashboard raw c = Except.error e)
      ↔ (raw.hasOrderDate = false ∨ raw.hasSales = false ∨ raw.hasProfit = false) := by
  simp only [run_dashboard]
  rw [missing_cols_eq, load_data_hasOrderDate, load_data_hasSales, load_data_hasProfit]
  cases raw.hasOrderDate <;> cases raw.hasSales <;> cases raw.hasProfit <;> simp

lemma sortByValDesc_sorted (l : List (String × ℚ)) :
    List.Sorted (fun a b : String × ℚ => b.2 ≤ a.2) (sortByValDesc l) := by
  letI : IsTotal (String × ℚ) (fun a b => b.2 ≤ a.2) := ⟨fun a b => le_total b.2 a.2⟩
  letI : IsTrans (String × ℚ) (fun a b => b.2 ≤ a.2) := ⟨fun a b c h1 h2 => le_trans h2 h1⟩
  exact List.sorted_insertionSort _ l

lemma sortByValAsc_sorted (l : List (String × ℚ)) :
    List.Sorted (fun a b : String × ℚ => a.2 ≤ b.2) (sortByValAsc l) := by
  letI : IsTotal (String × ℚ) (fun a b : String × ℚ => a.2 ≤ b.2) := ⟨fun a b => le_total a.2 b.2⟩
  letI : IsTrans (String × ℚ) (fun a b : String × ℚ => a.2 ≤ b.2) :=
    ⟨fun a b c h1 h2 => le_trans h1 h2⟩
  exact List.sorted_insertionSort _ l

/-- C9: when the `Category` column is present, the sales-by-category table is
sorted descending by its sales sums while the profit-by-category table over
the same view is sorted ascending by its profit sums — opposite directions. -/
theorem category_tables_opposite_sort (df : DataFrame) (ts tp : List (String × ℚ))
    (hs : cat_sales df = some ts) (hp : cat_profit df = some tp) :
    List.Sorted (fun a b : String × ℚ => b.2 ≤ a.2) ts
    ∧ List.Sorted (fun a b : String × ℚ => a.2 ≤ b.2) tp := by
  unfold cat_sales at hs
  unfold cat_profit at hp
  by_cases hc : df.hasCategory = true
  · rw [if_pos hc] at hs
    rw [if_pos hc] at hp
    injection hs with hs
    injection hp with hp
    subst hs
    subst hp
    exact ⟨sortByValDesc_sorted _, sortByValAsc_sorted _⟩
  · rw [if_neg hc] at hs
    cases hs

/-- Rows in two categories, one of them loss-making. -/
def wrows9 : List Row :=
  [{ orderDate := some ⟨2023, 1, 2⟩, shipDate := none, sales := 50, profit := -5,
     discount := 0, orderId := "B-1", productName := some "Phone",
     region := some "West", category := some "Technology", segment := some "Consumer",
     shipMode := some "First Class", state := some "Utah" },
   { orderDate := some ⟨2023, 1, 3⟩, shipDate := none, sales := 30, profit := 2,
     discount := 0, orderId := "B-2", productName := some "Paper",
     region := some "West", category := some "Office Supplies", segment := some "Consumer",
     shipMode := some "First Class", state := some "Utah" },
   { orderDate := some ⟨2023, 1, 4⟩, shipDate := none, sales := 20, profit := 1,
     discount := 0, orderId := "B-3", productName := some "Tablet",
     region := some "West", category := some "Technology", segment := some "Consumer",
     shipMode := some "First Class", state := some "Utah" }]

theorem category_tables_opposite_sort_witness :
    cat_sales (wdfAllCols wrows9)
      = some (sortByValDesc (groupSum Row.category Row.sales (wdfAllCols wrows9).rows))
    ∧ cat_profit (wdfAllCols wrows9)
      = some (sortByValAsc (groupSum Row.category Row.profit (wdfAllCols wrows9).rows))
    ∧ (List.Sorted (fun a b : String × ℚ => b.2 ≤ a.2)
        (sortByValDesc (groupSum Row.category Row.sales (wdfAllCols wrows9).rows))
      ∧ List.Sorted (fun a b : String × ℚ => a.2 ≤ b.2)
        (sortByValAsc (groupSum Row.category Row.profit (wdfAllCols wrows9).rows))) :=
  ⟨rfl, rfl,
   category_tables_opposite_sort (wdfAllCols wrows9)
     (sortByValDesc (groupSum Row.category Row.sales (wdfAllCols wrows9).rows))
     (sortByValAsc (groupSum Row.category Row.profit (wdfAllCols wrows9).rows)) rfl rfl⟩

lemma groupSum_nil (key : Row → Option String) (val : Row → ℚ) : groupSum key val [] = [] := rfl

lemma groupSum2_nil (key : Row → Option String) (v1 v2 : Row → ℚ) :
    groupSum2 key v1 v2 [] = [] := rfl

lemma sortByValDesc_nil : sortByValDesc [] = [] := rfl

lemma sortByValAsc_nil : sortByValAsc [] = [] := rfl

/-- Criteria that activate no categorical filter and span a wide date range. -/
def wcritAll : Criteria :=
  { startDate := ⟨2000, 1, 1⟩, endDate := ⟨2030, 12, 31⟩, regions := [],
    categories := [], segments := [], shipModes := [] }

/-- C2 counterexample: on an empty filtered view of a dataset whose
`Discount` column is present, `avg_discount` is `Series.mean()` of an empty
series — the float `NaN` (`none`), not `0.0` — so the claim that every empty
view yields `avg_discount = 0.0` is false on the code. -/
theorem empty_view_avg_discount_nan :
    (filterData (wdfAllCols []) wcritAll).rows = []
    ∧ (wdfAllCols []).hasDiscount = true
    ∧ avg_discount (filterData (wdfAllCols []) wcritAll) = none
    ∧ avg_discount (filterData (wdfAllCols []) wcritAll) ≠ some 0 := by
  refine ⟨rfl, rfl, rfl, ?_⟩
  rw [show avg_discount (filterData (wdfAllCols []) wcritAll) = none from rfl]
  simp

/-- C2 (amended): on an empty filtered view, `total_sales`, `total_profit`
and `total_orders` are 0 and every grouped aggregation yields zero rows, with
no error raised anywhere; `avg_discount` is `0.0` when the `Discount` column
is absent but `NaN` (`none`) when the column is present with zero rows. -/
theorem empty_view_kpis_and_aggregations (df : DataFrame) (c : Criteria)
    (h : (filterData df c).rows = []) :
    total_sales (filterData df c) = 0
    ∧ total_profit (filterData df c) = 0
    ∧ total_orders (filterData df c) = 0
    ∧ (df.hasDiscount = false → avg_discount (filterData df c) = some 0)
    ∧ (df.hasDiscount = true → avg_discount (filterData df c) = none)
    ∧ sales_daily (filterData df c) = []
    ∧ profit_month (filterData df c) = []
    ∧ (∀ t, cat_sales (filterData df c) = some t → t = [])
    ∧ (∀ t, cat_profit (filterData df c) = some t → t = [])
    ∧ (∀ t, region_agg (filterData df c) = some t → t = [])
    ∧ (∀ t, top_sales (filterData df c) = some t → t = [])
    ∧ (∀ t, top_profit (filterData df c) = some t → t = [])
    ∧ (∀ t, top_sales_display (filterData df c) = some t → t = [])
    ∧ (∀ t, top_profit_display (filterData df c) = some t → t = [])
    ∧ (∀ t, state_sales (filterData df c) = some t → t = []) := by
  have hdisc : (filterData df c).hasDiscount = df.hasDiscount := rfl
  refine ⟨?_, ?_, ?_, ?_, ?_, ?_, ?_, ?_, ?_, ?_, ?_, ?_, ?_, ?_, ?_⟩
  · simp [total_sales, h]
  · simp [total_profit, h]
  · simp [total_orders, h]
  · intro hf
    simp [avg_discount, hdisc, hf]
  · intro hf
    simp [avg_discount, hdisc, hf, h]
  · simp [sales_daily, h, sortDates, List.insertionSort]
  · simp [profit_month, h]
  · intro t ht
    unfold cat_sales at ht
    split at ht
    · rw [h, groupSum_nil, sortByValDesc_nil] at ht
      exact (Option.some.inj ht).symm
    · cases ht
  · intro t ht
    unfold cat_profit at ht
    split at ht
    · rw [h, groupSum_nil, sortByValAsc_nil] at ht
      exact (Option.some.inj ht).symm
    · cases ht
  · intro t ht
    unfold region_agg at ht
    split at ht
    · rw [h, groupSum2_nil] at ht
      rw [show List.insertionSort (fun a b : String × ℚ × ℚ => b.2.1 ≤ a.2.1) [] = [] from rfl] at ht
      exact (Option.some.inj ht).symm
    · cases ht
  · intro t ht
    unfold top_sales at ht
    split at ht
    · rw [h, groupSum_nil, sortByValDesc_nil, List.take_nil] at ht
      exact (Option.some.inj ht).symm
    · cases ht
  · intro t ht
    unfold top_profit at ht
    split at ht
    · rw [h, groupSum_nil, sortByValDesc_nil, List.take_nil] at ht
      exact (Option.some.inj ht).symm
    · cases ht
  · intro t ht
    unfold top_sales_display top_sales at ht
    split at ht
    · rw [h, groupSum_nil, sortByValDesc_nil, List.take_nil] at ht
      rw [show Option.map sortByValAsc (some ([] : List (String × ℚ)))
            = some (sortByValAsc []) from rfl, sortByValAsc_nil] at ht
      exact (Option.some.inj ht).symm
    · cases ht
  · intro t ht
    unfold top_profit_display top_profit at ht
    split at ht
    · rw [h, groupSum_nil, sortByValDesc_nil, List.take_nil] at ht
      rw [show Option.map sortByValAsc (some ([] : List (String × ℚ)))
            = some (sortByValAsc []) from rfl, sortByValAsc_nil] at ht
      exact (Option.some.inj ht).symm
    · cases ht
  · intro t ht
    unfold state_sales at ht
    split at ht
    · rw [h, groupSum_nil, sortByValDesc_nil] at ht
      exact (Option.some.inj ht).symm
    · cases ht

theorem empty_view_kpis_and_aggregations_witness :
    (filterData (wdfAllCols []) wcritAll).rows = []
    ∧ (total_sales (filterData (wdfAllCols []) wcritAll) = 0
      ∧ total_profit (filterData (wdfAllCols []) wcritAll) = 0
      ∧ total_orders (filterData (wdfAllCols []) wcritAll) = 0
      ∧ ((wdfAllCols []).hasDiscount = false →
          avg_discount (filterData (wdfAllCols []) wcritAll) = some 0)
      ∧ ((wdfAllCols []).hasDiscount = true →
          avg_discount (filterData (wdfAllCols []) wcritAll) = none)
      ∧ sales_daily (filterData (wdfAllCols []) wcritAll) = []
      ∧ profit_month (filterData (wdfAllCols []) wcritAll) = []
      ∧ (∀ t, cat_sales (filterData (wdfAllCols []) wcritAll) = some t → t = [])
      ∧ (∀ t, cat_profit (filterData (wdfAllCols []) wcritAll) = some t → t = [])
      ∧ (∀ t, region_agg (filterData (wdfAllCols []) wcritAll) = some t → t = [])
      ∧ (∀ t, top_sales (filterData (wdfAllCols []) wcritAll) = some t → t = [])
      ∧ (∀ t, top_profit (filterData (wdfAllCols []) wcritAll) = some t → t = [])
      ∧ (∀ t, top_sales_display (filterData (wdfAllCols []) wcritAll) = some t → t = [])
      ∧ (∀ t, top_profit_display (filterData (wdfAllCols []) wcritAll) = some t → t = [])
      ∧ (∀ t, state_sales (filterData (wdfAllCols []) wcritAll) = some t → t = [])) :=
  ⟨rfl, empty_view_kpis_and_aggregations (wdfAllCols []) wcritAll rfl⟩

lemma sortByValDesc_perm (l : List (String × ℚ)) : (sortByValDesc l).Perm l :=
  List.perm_insertionSort _ _

lemma sortByValAsc_perm (l : List (String × ℚ)) : (sortByValAsc l).Perm l :=
  List.perm_insertionSort _ _

lemma sum_map_filter_and (val : Row → ℚ) (p q : Row → Bool) (l : List Row) :
    ((l.filter p).map val).sum
      = ((l.filter (fun r => p r && q r)).map val).sum
        + ((l.filter (fun r => p r && !q r)).map val).sum := by
  induction l with
  | nil => simp
  | cons r t ih =>
    by_cases hp : p r = true <;> by_cases hq : q r = true <;>
      simp [List.filter_cons, hp, hq, ih] <;> ring

lemma filter_key_of_ne (key : Row → Option String) {k k0 : String} (hne : k ≠ k0)
    (l : List Row) :
    (l.filter (fun r => !(key r == some k0))).filter (fun r => key r == some k)
      = l.filter (fun r => key r == some k) := by
  rw [List.filter_filter]
  apply List.filter_congr
  intro r _
  by_cases hk : (key r == some k) = true
  · have hkey : key r = some k := by simpa using hk
    simp [hkey, hne]
  · simp [hk]

lemma key_partition (key : Row → Option String) (val : Row → ℚ) :
    ∀ (K : List String) (l : List Row), K.Nodup →
      (∀ r ∈ l, ∀ k, key r = some k → k ∈ K) →
      (K.map (fun k => ((l.filter (fun r => key r == some k)).map val).sum)).sum
        = ((l.filter (fun r => (key r).isSome)).map val).sum := by
  intro K
  induction K with
  | nil =>
    intro l _ hcov
    have hnil : l.filter (fun r => (key r).isSome) = [] := by
      rw [List.filter_eq_nil_iff]
      intro r hr hsome
      cases hk : key r with
      | none => rw [hk] at hsome ; simp at hsome
      | some k => exact absurd (hcov r hr k hk) (List.not_mem_nil k)
    simp [hnil]
  | cons k0 K ih =>
    intro l hnd hcov
    have hk0 : k0 ∉ K := (List.nodup_cons.mp hnd).1
    have hndK : K.Nodup := (List.nodup_cons.mp hnd).2
    set lrest := l.filter (fun r => !(key r == some k0)) with hlrest
    have hcongr : ∀ k ∈ K,
        ((l.filter (fun r => key r == some k)).map val).sum
          = ((lrest.filter (fun r => key r == some k)).map val).sum := by
      intro k hkK
      have hne : k ≠ k0 := fun he => hk0 (he ▸ hkK)
      rw [hlrest, filter_key_of_ne key hne l]
    have hcovrest : ∀ r ∈ lrest, ∀ k, key r = some k → k ∈ K := by
      intro r hr k hk
      have hrl : r ∈ l := (List.mem_filter.mp hr).1
      have hnk0 : (!(key r == some k0)) = true := (List.mem_filter.mp hr).2
      have hmem := hcov r hrl k hk
      cases List.mem_cons.mp hmem with
      | inl heq =>
        exfalso
        rw [hk, heq] at hnk0
        simp at hnk0
      | inr hK => exact hK
    have hsplit := sum_map_filter_and val (fun r => (key r).isSome)
      (fun r => key r == some k0) l
    have hfirst : l.filter (fun r => (key r).isSome && (key r == some k0))
        = l.filter (fun r => key r == some k0) := by
      apply List.filter_congr
      intro r _
      by_cases hk : (key r == some k0) = true
      · have hkey : key r = some k0 := by simpa using hk
        simp [hkey]
      · simp [hk]
    have hsecond : l.filter (fun r => (key r).isSome && !(key r == some k0))
        = lrest.filter (fun r => (key r).isSome) := by
      rw [hlrest, List.filter_filter]
    rw [List.map_cons, List.sum_cons, List.map_congr_left hcongr,
      ih lrest hndK hcovrest, hsplit, hfirst, hsecond]

lemma groupSum_snd_sum (key : Row → Option String) (val : Row → ℚ) (l : List Row) :
    ((groupSum key val l).map Prod.snd).sum
      = ((l.filter (fun r => (key r).isSome)).map val).sum := by
  unfold groupSum sortStrings
  rw [List.map_map]
  have hperm := List.perm_insertionSort (fun a b => strLe a b = true) ((l.filterMap key).dedup)
  have hmap := hperm.map
    (Prod.snd ∘ fun k => (k, ((l.filter (fun r => key r == some k)).map val).sum))
  rw [hmap.sum_eq]
  have hcov : ∀ r ∈ l, ∀ k, key r = some k → k ∈ (l.filterMap key).dedup := by
    intro r hr k hk
    exact List.mem_dedup.mpr (List.mem_filterMap.mpr ⟨r, hr, hk⟩)
  exact key_partition key val ((l.filterMap key).dedup) l (List.nodup_dedup _) hcov

/-- C4 (amended): the per-category sales sums add up to the Sales total of
the view rows whose `Category` cell is non-null — pandas `groupby` silently
drops null-key rows — and hence, when every view row has a non-null
`Category`, to `total_sales` of the view. -/
theorem cat_sales_partition (df : DataFrame) (c : Criteria) (t : List (String × ℚ))
    (h : cat_sales (filterData df c) = some t) :
    (t.map Prod.snd).sum
      = (((filterData df c).rows.filter (fun r => (Row.category r).isSome)).map Row.sales).sum
    ∧ ((∀ r ∈ (filterData df c).rows, (Row.category r).isSome = true) →
        (t.map Prod.snd).sum = total_sales (filterData df c)) := by
  unfold cat_sales at h
  split at h
  case isTrue =>
    injection h with h
    subst h
    have hmain : ((sortByValDesc (groupSum Row.category Row.sales
          (filterData df c).rows)).map Prod.snd).sum
        = (((filterData df c).rows.filter
            (fun r => (Row.category r).isSome)).map Row.sales).sum := by
      rw [((sortByValDesc_perm _).map Prod.snd).sum_eq]
      exact groupSum_snd_sum _ _ _
    refine ⟨hmain, fun hall => ?_⟩
    rw [hmain, List.filter_eq_self.mpr hall]
    rfl
  case isFalse => cases h

/-- Two view rows, one with a null `Category` cell. -/
def wrows4 : List Row :=
  [{ orderDate := some ⟨2024, 1, 1⟩, shipDate := none, sales := 100, profit := 10,
     discount := 0, orderId := "D-1", productName := some "Chair",
     region := some "West", category := some "Furniture", segment := some "Consumer",
     shipMode := some "First Class", state := some "Utah" },
   { orderDate := some ⟨2024, 1, 2⟩, shipDate := none, sales := 50, profit := -5,
     discount := 0, orderId := "D-2", productName := some "Lamp",
     region := some "East", category := none, segment := some "Consumer",
     shipMode := some "First Class", state := some "Ohio" }]

/-- C4 counterexample: with the `Category` column present but one view row
having a null `Category` cell, the per-category sales sums add up to 100
while `total_sales` of the same view is 150 — the groups do not partition the
view's Sales total. -/
theorem cat_sales_partition_counterexample :
    (wdfAllCols wrows4).hasCategory = true
    ∧ (((cat_sales (filterData (wdfAllCols wrows4) wcritAll)).getD []).map Prod.snd).sum
        ≠ total_sales (filterData (wdfAllCols wrows4) wcritAll) := by
  refine ⟨rfl, ?_⟩
  have h2 : (((cat_sales (filterData (wdfAllCols wrows4) wcritAll)).getD []).map
      Prod.snd).sum = ((100 : ℚ) + 0) + 0 := rfl
  have h3 : total_sales (filterData (wdfAllCols wrows4) wcritAll)
      = (100 : ℚ) + (50 + 0) := rfl
  rw [h2, h3]
  norm_num

theorem cat_sales_partition_witness :
    cat_sales (filterData (wdfAllCols wrows4) wcritAll)
      = some (sortByValDesc (groupSum Row.category Row.sales
          (filterData (wdfAllCols wrows4) wcritAll).rows))
    ∧ (((sortByValDesc (groupSum Row.category Row.sales
          (filterData (wdfAllCols wrows4) wcritAll).rows)).map Prod.snd).sum
        = (((filterData (wdfAllCols wrows4) wcritAll).rows.filter
            (fun r => (Row.category r).isSome)).map Row.sales).sum
      ∧ ((∀ r ∈ (filterData (wdfAllCols wrows4) wcritAll).rows,
            (Row.category r).isSome = true) →
          ((sortByValDesc (groupSum Row.category Row.sales
              (filterData (wdfAllCols wrows4) wcritAll).rows)).map Prod.snd).sum
            = total_sales (filterData (wdfAllCols wrows4) wcritAll))) :=
  ⟨rfl, cat_sales_partition (wdfAllCols wrows4) wcritAll
    (sortByValDesc (groupSum Row.category Row.sales
      (filterData (wdfAllCols wrows4) wcritAll).rows)) rfl⟩

/-- C5: with at least 10 product groups, the top-10 table has exactly 10
entries, every entry's sales sum is at least the sales sum of every excluded
product group, and the displayed table (re-sorted for the horizontal bar
chart) is ascending by sales sum. -/
theorem top_sales_top10 (df : DataFrame) (t disp : List (String × ℚ))
    (ht : top_sales df = some t) (hd : top_sales_display df = some disp)
    (hcount : 10 ≤ (groupSum Row.productName Row.sales df.rows).length) :
    t.length = 10
    ∧ (∀ p ∈ groupSum Row.productName Row.sales df.rows, p ∉ t → ∀ a ∈ t, p.2 ≤ a.2)
    ∧ List.Sorted (fun a b : String × ℚ => a.2 ≤ b.2) disp := by
  unfold top_sales at ht
  split at ht
  case isTrue hcat =>
    injection ht with ht
    unfold top_sales_display top_sales at hd
    rw [if_pos hcat] at hd
    rw [show Option.map sortByValAsc
        (some ((sortByValDesc (groupSum Row.productName Row.sales df.rows)).take 10))
      = some (sortByValAsc
        ((sortByValDesc (groupSum Row.productName Row.sales df.rows)).take 10)) from rfl] at hd
    injection hd with hd
    subst ht
    subst hd
    set S := sortByValDesc (groupSum Row.productName Row.sales df.rows) with hS
    have hsorted : List.Sorted (fun a b : String × ℚ => b.2 ≤ a.2) S := sortByValDesc_sorted _
    have hlenS : S.length = (groupSum Row.productName Row.sales df.rows).length :=
      (sortByValDesc_perm _).length_eq
    refine ⟨?_, ?_, ?_⟩
    · rw [List.length_take, hlenS]
      omega
    · intro p hp hnp a ha
      have hpS : p ∈ S := ((sortByValDesc_perm _).mem_iff).mpr hp
      have hsplit := List.take_append_drop 10 S
      have hpd : p ∈ S.drop 10 := by
        rcases List.mem_append.mp (by rw [hsplit] ; exact hpS) with hin | hout
        · exact absurd hin hnp
        · exact hout
      have hpair : List.Pairwise (fun a b : String × ℚ => b.2 ≤ a.2)
          (S.take 10 ++ S.drop 10) := by
        rw [hsplit]
        exact hsorted
      exact (List.pairwise_append.mp hpair).2.2 a ha p hpd
    · exact sortByValAsc_sorted _
  case isFalse => cases ht

/-- A row with the given product name and sales value; twelve of these give
twelve distinct product groups. -/
def mkRow5 (name : String) (s : ℚ) : Row :=
  { orderDate := some ⟨2024, 1, 1⟩, shipDate := none, sales := s, profit := 0,
    discount := 0, orderId := "E-1", productName := some name, region := some "West",
    category := some "Technology", segment := some "Consumer",
    shipMode := some "First Class", state := some "Utah" }

/-- Twelve rows with twelve distinct product names. -/
def wrows5 : List Row :=
  [mkRow5 "P01" 1, mkRow5 "P02" 2, mkRow5 "P03" 3, mkRow5 "P04" 4,
   mkRow5 "P05" 5, mkRow5 "P06" 6, mkRow5 "P07" 7, mkRow5 "P08" 8,
   mkRow5 "P09" 9, mkRow5 "P10" 10, mkRow5 "P11" 11, mkRow5 "P12" 12]

theorem top_sales_top10_witness :
    10 ≤ (groupSum Row.productName Row.sales (wdfAllCols wrows5).rows).length
    ∧ (((sortByValDesc (groupSum Row.productName Row.sales
          (wdfAllCols wrows5).rows)).take 10).length = 10
      ∧ (∀ p ∈ groupSum Row.productName Row.sales (wdfAllCols wrows5).rows,
          p ∉ (sortByValDesc (groupSum Row.productName Row.sales
            (wdfAllCols wrows5).rows)).take 10 →
          ∀ a ∈ (sortByValDesc (groupSum Row.productName Row.sales
            (wdfAllCols wrows5).rows)).take 10, p.2 ≤ a.2)
      ∧ List.Sorted (fun a b : String × ℚ => a.2 ≤ b.2)
          (sortByValAsc ((sortByValDesc (groupSum Row.productName Row.sales
            (wdfAllCols wrows5).rows)).take 10))) := by
  have hlen : (groupSum Row.productName Row.sales (wdfAllCols wrows5).rows).length = 12 := rfl
  have hcount : 10 ≤ (groupSum Row.productName Row.sales (wdfAllCols wrows5).rows).length := by
    rw [hlen]
    omega
  exact ⟨hcount,
    top_sales_top10 (wdfAllCols wrows5)
      ((sortByValDesc (groupSum Row.productName Row.sales (wdfAllCols wrows5).rows)).take 10)
      (sortByValAsc ((sortByValDesc (groupSum Row.productName Row.sales
        (wdfAllCols wrows5).rows)).take 10))
      rfl rfl hcount⟩

lemma pairs_filter_map (l : List Row) (j : Nat) :
    ((l.filterMap (fun r => r.orderDate.map (fun d => (d, r.profit)))).filter
        (fun p => monthIdx p.1 == j)).map Prod.snd
      = (l.filter (fun r => match r.orderDate with
          | some d => monthIdx d == j
          | none => false)).map Row.profit := by
  induction l with
  | nil => rfl
  | cons r t ih =>
    cases hod : r.orderDate with
    | none => simp [List.filterMap_cons, List.filter_cons, hod, ih]
    | some d =>
      by_cases hj : (monthIdx d == j) = true
      · simp [List.filterMap_cons, List.filter_cons, hod, hj, ih]
      · simp [List.filterMap_cons, List.filter_cons, hod, hj, ih]

/-- C3 (amended): `resample("M")` labels each month bucket with the LAST
calendar day of the month (not the first) and emits one bucket for every
month between the earliest and latest Order Date months; hence on a view
whose rows span exactly two CONSECUTIVE calendar months it produces exactly
the 2 buckets, with the correct per-month profit sums, regardless of
day-of-month values. -/
theorem profit_month_two_consecutive (df : DataFrame) (m : Nat)
    (hall : df.rows.all (fun r => match r.orderDate with
      | some d => (monthIdx d == m) || (monthIdx d == m + 1)
      | none => false) = true)
    (h1 : df.rows.any (fun r => match r.orderDate with
      | some d => monthIdx d == m
      | none => false) = true)
    (h2 : df.rows.any (fun r => match r.orderDate with
      | some d => monthIdx d == m + 1
      | none => false) = true) :
    profit_month df =
      [(monthEndDate m,
        ((df.rows.filter (fun r => match r.orderDate with
          | some d => monthIdx d == m
          | none => false)).map Row.profit).sum),
       (monthEndDate (m + 1),
        ((df.rows.filter (fun r => match r.orderDate with
          | some d => monthIdx d == m + 1
          | none => false)).map Row.profit).sum)] := by
  simp only [profit_month]
  set pairs := df.rows.filterMap (fun r => r.orderDate.map (fun d => (d, r.profit)))
    with hpairs
  set idxs := pairs.map (fun p => monthIdx p.1) with hidxs
  have hmem_all : ∀ x ∈ idxs, x = m ∨ x = m + 1 := by
    intro x hx
    rw [hidxs] at hx
    obtain ⟨p, hp, hpx⟩ := List.mem_map.mp hx
    rw [hpairs] at hp
    obtain ⟨r, hr, hpr⟩ := List.mem_filterMap.mp hp
    cases hod : r.orderDate with
    | none =>
      rw [hod] at hpr
      cases hpr
    | some d =>
      rw [hod] at hpr
      injection hpr with hpr
      have hx1 : p.1 = d := by rw [← hpr]
      have hall₁ := List.all_eq_true.mp hall r hr
      rw [hod] at hall₁
      rcases Bool.or_eq_true _ _ ▸ hall₁ with hc | hc
      · left
        rw [← hpx, hx1]
        exact eq_of_beq hc
      · right
        rw [← hpx, hx1]
        exact eq_of_beq hc
  have hmk : ∀ j : Nat, df.rows.any (fun r => match r.orderDate with
      | some d => monthIdx d == j
      | none => false) = true → j ∈ idxs := by
    intro j hj
    obtain ⟨r, hr, hmatch⟩ := List.any_eq_true.mp hj
    cases hod : r.orderDate with
    | none =>
      rw [hod] at hmatch
      cases hmatch
    | some d =>
      rw [hod] at hmatch
      have hdj : monthIdx d = j := eq_of_beq hmatch
      have hp : (d, r.profit) ∈ pairs := by
        rw [hpairs]
        refine List.mem_filterMap.mpr ⟨r, hr, ?_⟩
        rw [hod]
        rfl
      rw [hidxs]
      rw [← hdj]
      exact List.mem_map.mpr ⟨(d, r.profit), hp, rfl⟩
  have hmin : idxs.min? = some m := by
    rw [List.min?_eq_some_iff (fun a => Nat.le_refl a) (fun a b => min_choice a b)
      (fun a b c => le_min_iff)]
    refine ⟨hmk m h1, fun b hb => ?_⟩
    rcases hmem_all b hb with hb1 | hb1 <;> omega
  have hmax : idxs.max? = some (m + 1) := by
    rw [List.max?_eq_some_iff (fun a => Nat.le_refl a) (fun a b => max_choice a b)
      (fun a b c => max_le_iff)]
    refine ⟨hmk (m + 1) h2, fun b hb => ?_⟩
    rcases hmem_all b hb with hb1 | hb1 <;> omega
  rw [hmin, hmax]
  have hrange : m + 1 + 1 - m = 2 := by omega
  rw [show (match (some m : Option Nat), (some (m + 1) : Option Nat) with
      | some lo, some hi =>
          (List.range (hi + 1 - lo)).map (fun i =>
            (monthEndDate (lo + i),
             ((pairs.filter (fun p => monthIdx p.1 == lo + i)).map Prod.snd).sum))
      | _, _ => ([] : List (Date × ℚ)))
    = (List.range (m + 1 + 1 - m)).map (fun i =>
        (monthEndDate (m + i),
         ((pairs.filter (fun p => monthIdx p.1 == m + i)).map Prod.snd).sum)) from rfl]
  rw [hrange]
  rw [show List.range 2 = [0, 1] from rfl]
  simp only [List.map_cons, List.map_nil, Nat.add_zero]
  rw [hpairs, pairs_filter_map df.rows m, pairs_filter_map df.rows (m + 1)]

/-- Two rows in non-adjacent months of 2024: January 15 and March 10. -/
def wrows3 : List Row :=
  [{ orderDate := some ⟨2024, 1, 15⟩, shipDate := none, sales := 10, profit := 3,
     discount := 0, orderId := "F-1", productName := some "Chair",
     region := some "West", category := some "Furniture", segment := some "Consumer",
     shipMode := some "First Class", state := some "Utah" },
   { orderDate := some ⟨2024, 3, 10⟩, shipDate := none, sales := 20, profit := 5,
     discount := 0, orderId := "F-2", productName := some "Lamp",
     region := some "East", category := some "Furniture", segment := some "Consumer",
     shipMode := some "First Class", state := some "Ohio" }]

/-- C3 counterexample: on a view whose rows occupy exactly two calendar
months (January and March 2024), `resample("M")` produces THREE buckets (the
empty February is included) and labels them with the last day of each month
(2024-01-31, 2024-02-29, 2024-03-31), not the first day — refuting both the
first-day labelling and the exactly-2-buckets parts of the claim. -/
theorem profit_month_counterexample :
    ((wdfAllCols wrows3).rows.filterMap
        (fun r => r.orderDate.map monthIdx)).dedup.length = 2
    ∧ (profit_month (wdfAllCols wrows3)).length = 3
    ∧ (profit_month (wdfAllCols wrows3)).map Prod.fst
        = [⟨2024, 1, 31⟩, ⟨2024, 2, 29⟩, ⟨2024, 3, 31⟩]
    ∧ (⟨2024, 1, 31⟩ : Date) ≠ ⟨2024, 1, 1⟩ := by
  refine ⟨rfl, rfl, rfl, ?_⟩
  intro h
  cases h

/-- Two rows in consecutive months of 2024: January 15 and February 10;
month 24288 is January 2024 on the month axis. -/
def wrows3c : List Row :=
  [{ orderDate := some ⟨2024, 1, 15⟩, shipDate := none, sales := 10, profit := 3,
     discount := 0, orderId := "G-1", productName := some "Chair",
     region := some "West", category := some "Furniture", segment := some "Consumer",
     shipMode := some "First Class", state := some "Utah" },
   { orderDate := some ⟨2024, 2, 10⟩, shipDate := none, sales := 20, profit := 5,
     discount := 0, orderId := "G-2", productName := some "Lamp",
     region := some "East", category := some "Furniture", segment := some "Consumer",
     shipMode := some "First Class", state := some "Ohio" }]

theorem profit_month_two_consecutive_witness :
    profit_month (wdfAllCols wrows3c) =
      [(monthEndDate 24288,
        (((wdfAllCols wrows3c).rows.filter (fun r => match r.orderDate with
          | some d => monthIdx d == 24288
          | none => false)).map Row.profit).sum),
       (monthEndDate (24288 + 1),
        (((wdfAllCols wrows3c).rows.filter (fun r => match r.orderDate with
          | some d => monthIdx d == 24288 + 1
          | none => false)).map Row.profit).sum)] :=
  profit_month_two_consecutive (wdfAllCols wrows3c) 24288 rfl rfl rfl
